import Mathlib

/-!
Shallow embedding of the router-state reconciliation core of
`networking_portforwarding/agent/l3/agent.py`, together with theorems
checking the natural-language specification against it.

External collaborators (RPC transport, namespace driver, iptables
serialization) are represented by injected call outcomes; agent-level
state (router registry, full-sync flag, update queue, observer
notifications, applied NAT rules) is carried explicitly.
-/

/-- Router identifiers (UUID strings in the source). -/
abbrev RouterId := String

/-- One entry of a port `fixed_ips` list; only the `ip_address` field is
read by the agent code under study. -/
structure FixedIp where
  ip_address : String
deriving DecidableEq, Repr

/-- A network port document; the port-forwarding code reads
`port['fixed_ips'][0]['ip_address']`. -/
structure Port where
  fixed_ips : List FixedIp
deriving DecidableEq, Repr

/-- A port-forwarding rule record as carried in the router document and in
`ri.portforwardings`.  `outside_addr` is `none` until the reconciliation
pass populates it from the gateway port (`new_portfwd['outside_addr'] = ...`
in `process_router_portforwardings`). -/
structure PortForwarding where
  protocol : String
  outside_port : Nat
  inside_addr : String
  inside_port : Nat
  outside_addr : Option String
deriving DecidableEq, Repr

/-- The `external_gateway_info` sub-document; only `network_id` is read
(`(router['external_gateway_info'] or {}).get('network_id')`). -/
structure ExternalGatewayInfo where
  network_id : Option String
deriving DecidableEq, Repr

/-- The router desired-state document, restricted to the fields the code
under study reads.  `distributed`/`ha` model Python truthiness of
`router.get('distributed')`/`router.get('ha')` (an absent key is falsy).
`portforwardings = none` models the `'portforwardings'` key being absent
from the document (port-forwarding extension not enabled). -/
structure Router where
  id : RouterId
  distributed : Bool
  ha : Bool
  portforwardings : Option (List PortForwarding)
  external_gateway_info : Option ExternalGatewayInfo
  gw_port : Option Port
deriving DecidableEq, Repr

/-- Exceptions raised by the embedded agent code. -/
inductive AgentError
  | dvrHaRouterNotSupported (router_id : RouterId)
  | routerNotCompatibleWithAgent (router_id : RouterId)
  | tooManyExternalNetworksConf
  | remoteError
  | indexError
  | keyError
  | shouldNeverBeHere
deriving DecidableEq, Repr

/-- Modelled from the spec: `diff_list_of_dict` (imported from the shared
`common_utils` module, not part of the repository sources) treats both
collections as unordered collections of structurally-equal records and
computes `adds = new − old`, `removes = old − new` by full structural
equality, not just key fields. -/
def diff_list_of_dict (old_list new_list : List PortForwarding) :
    List PortForwarding × List PortForwarding :=
  (new_list.filter (fun r => decide (r ∉ old_list)),
   old_list.filter (fun r => decide (r ∉ new_list)))

/-- The DNAT rule string built by `_update_portforwardings`
(`"-p %(protocol)s -d %(outside_addr)s --dport %(outside_port)s -j DNAT
--to %(inside_addr)s:%(inside_port)s" % portfwd`).  Stored rule records
always carry a populated `outside_addr`; `getD ""` only covers the
unreachable unpopulated case. -/
def rule_in (portfwd : PortForwarding) : String :=
  "-p " ++ portfwd.protocol ++
  " -d " ++ (portfwd.outside_addr.getD "") ++
  " --dport " ++ toString portfwd.outside_port ++
  " -j DNAT --to " ++ portfwd.inside_addr ++ ":" ++ toString portfwd.inside_port

/-- Remove the first occurrence of a rule from the rule list, a no-op when
the rule is absent (the iptables manager logs and ignores removal of a
missing rule). -/
def removeFirst : List (String × String) → (String × String) → List (String × String)
  | [], _ => []
  | x :: xs, r => if x = r then xs else x :: removeFirst xs r

/-- `_update_portforwardings(ri, operation, portfwd)`: install or retract
the DNAT rule for one record in the ipv4 nat `PREROUTING` chain; any other
operation raises (`should never be here`).  The rule list stands for
`ri.iptables_manager.ipv4['nat']` restricted to the managed chain entries. -/
def _update_portforwardings (nat_rules : List (String × String))
    (operation : String) (portfwd : PortForwarding) :
    Except AgentError (List (String × String)) :=
  let chain_in := "PREROUTING"
  let r := rule_in portfwd
  if operation = "create" then
    .ok (nat_rules ++ [(chain_in, r)])
  else if operation = "delete" then
    .ok (removeFirst nat_rules (chain_in, r))
  else
    .error .shouldNeverBeHere

/-- Apply `_update_portforwardings` with a fixed operation to each record
in turn (the `for portfwd in adds / removes` loops). -/
def applyPortforwardings (operation : String) :
    List PortForwarding → List (String × String) →
    Except AgentError (List (String × String))
  | [], nat_rules => .ok nat_rules
  | p :: rest, nat_rules =>
    match _update_portforwardings nat_rules operation p with
    | .error e => .error e
    | .ok nat_rules2 => applyPortforwardings operation rest nat_rules2

/-- Runtime variant chosen by `_create_router` (DvrRouter / HaRouter /
LegacyRouter). -/
inductive RouterVariant
  | dvr
  | haVariant
  | legacy
deriving DecidableEq, Repr

/-- Router runtime state (`ri`), restricted to the parts the code under
study touches: the stored desired-state document, the chosen variant, the
previously applied port-forwarding collection and the managed NAT rules.
Modelled from the spec: `RouterRuntimeState` holds the applied
port-forward rule set, empty at construction. -/
structure RouterInfo where
  router_id : RouterId
  router : Router
  variant : RouterVariant
  portforwardings : List PortForwarding
  nat_rules : List (String × String)
deriving DecidableEq, Repr

/-- `process_router_portforwardings(ri, ex_gw_port)`.  Returns the updated
runtime state and whether `ri.iptables_manager.apply()` was reached
(`false` only on the early `return None` when the router document has no
`portforwardings` key).  With a gateway port, each desired record first
gets `outside_addr` populated from the gateway port's first fixed IP
(`fixed_ips[0]` raises IndexError on an empty list), then
`diff_list_of_dict` computes adds and removes, rules are installed for
adds and retracted for removes, and the stored collection becomes the new
collection.  Without a gateway port, every stored record's rule is
retracted and the stored collection becomes empty. -/
def process_router_portforwardings (ri : RouterInfo) (ex_gw_port : Option Port) :
    Except AgentError (RouterInfo × Bool) :=
  match ri.router.portforwardings with
  | none => .ok (ri, false)
  | some pfs =>
    match ex_gw_port with
    | some gw =>
      match gw.fixed_ips.head? with
      | none => .error .indexError
      | some fip =>
        let new_portfwds := pfs.map (fun p => { p with outside_addr := some fip.ip_address })
        let old_portfwds := ri.portforwardings
        let (adds, removes) := diff_list_of_dict old_portfwds new_portfwds
        match applyPortforwardings "create" adds ri.nat_rules with
        | .error e => .error e
        | .ok rules1 =>
          match applyPortforwardings "delete" removes rules1 with
          | .error e => .error e
          | .ok rules2 =>
            .ok ({ ri with
                     router := { ri.router with portforwardings := some new_portfwds },
                     portforwardings := new_portfwds,
                     nat_rules := rules2 }, true)
    | none =>
      let old_portfwds := ri.portforwardings
      match applyPortforwardings "delete" old_portfwds ri.nat_rules with
      | .error e => .error e
      | .ok rules2 =>
        .ok ({ ri with portforwardings := [], nat_rules := rules2 }, true)

/-- Observer lifecycle events published through `self.event_observers`. -/
inductive NotificationEvent
  | before_router_added (id : RouterId)
  | after_router_added (id : RouterId)
  | before_router_updated (id : RouterId)
  | after_router_updated (id : RouterId)
  | before_router_removed (id : RouterId)
  | after_router_removed (id : RouterId)
deriving DecidableEq, Repr

/-- Agent-level mutable state touched by the router registration code:
the `self.router_info` registry, the `self.target_ex_net_id` cache and
the stream of observer notifications emitted so far. -/
structure AgentState where
  router_info : List (RouterId × RouterInfo)
  target_ex_net_id : Option String
  notifications : List NotificationEvent
deriving DecidableEq, Repr

/-- Dictionary lookup in the `router_info` registry. -/
def lookupRI (m : List (RouterId × RouterInfo)) (rid : RouterId) : Option RouterInfo :=
  (m.find? (fun p => p.1 = rid)).map Prod.snd

/-- Dictionary store `self.router_info[router_id] = ri` (replace or append). -/
def insertRI (m : List (RouterId × RouterInfo)) (rid : RouterId) (ri : RouterInfo) :
    List (RouterId × RouterInfo) :=
  if (m.find? (fun p => p.1 = rid)).isSome then
    m.map (fun p => if p.1 = rid then (rid, ri) else p)
  else
    m ++ [(rid, ri)]

/-- `_create_router(router_id, router)`: reject the distributed+HA
combination with `DvrHaRouterNotSupported`, otherwise select the runtime
variant (DVR, then HA, then Legacy). -/
def _create_router (router_id : RouterId) (router : Router) :
    Except AgentError RouterInfo :=
  if router.distributed && router.ha then
    .error (.dvrHaRouterNotSupported router_id)
  else if router.distributed then
    .ok ⟨router_id, router, .dvr, [], []⟩
  else if router.ha then
    .ok ⟨router_id, router, .haVariant, [], []⟩
  else
    .ok ⟨router_id, router, .legacy, [], []⟩

/-- `_router_added(router_id, router)`: build the runtime object, notify
`before_router_added`, store it in the registry, then run creation hooks
(whose effects live in external collaborators).  Returns the state
alongside an optional raised exception; an exception from
`_create_router` is raised before any agent-state mutation, so the input
state is returned unchanged with it. -/
def _router_added (st : AgentState) (router_id : RouterId) (router : Router) :
    AgentState × Option AgentError :=
  match _create_router router_id router with
  | .error e => (st, some e)
  | .ok ri =>
    let st1 := { st with
      notifications := st.notifications ++ [NotificationEvent.before_router_added router_id] }
    let st2 := { st1 with router_info := insertRI st1.router_info router_id ri }
    (st2, none)

/-- Configuration options read by the compatibility and external-network
code.  String options model Python truthiness: the empty string is an
unset (falsy) option. -/
structure Conf where
  external_network_bridge : String
  use_namespaces : Bool
  router_id : RouterId
  handle_internal_only_routers : Bool
  gateway_external_network_id : String
deriving DecidableEq, Repr

/-- Outcome of one `get_external_network_id` RPC. -/
inductive ExtNetRpcResult
  | ok (network_id : String)
  | tooManyExternalNetworks
  | otherRemoteError
deriving DecidableEq, Repr

/-- `_fetch_external_net_id(force)`: return the configured gateway
network id if set; return nothing when no external bridge is configured;
otherwise serve from the `target_ex_net_id` cache unless forced, and on a
cache miss ask the plugin, caching the answer.  A remote
`TooManyExternalNetworks` error is converted to a configuration
exception; other remote errors are re-raised. -/
def _fetch_external_net_id (conf : Conf) (rpc : ExtNetRpcResult)
    (st : AgentState) (force : Bool) :
    Except AgentError (Option String × AgentState) :=
  if conf.gateway_external_network_id ≠ "" then
    .ok (some conf.gateway_external_network_id, st)
  else if conf.external_network_bridge = "" then
    .ok (none, st)
  else if !force && st.target_ex_net_id.isSome then
    .ok (st.target_ex_net_id, st)
  else
    match rpc with
    | .ok net_id => .ok (some net_id, { st with target_ex_net_id := some net_id })
    | .tooManyExternalNetworks => .error .tooManyExternalNetworksConf
    | .otherRemoteError => .error .remoteError

/-- External-call outcomes injected into `_process_router_if_compatible`:
whether the bridge device exists, and the results of the unforced and
forced `get_external_network_id` calls. -/
structure CompatEnv where
  deviceExists : String → Bool
  extNetRpc : ExtNetRpcResult
  extNetRpcForced : ExtNetRpcResult

/-- How `_process_router_if_compatible` returned (when it did not raise). -/
inductive CompatResult
  | skippedMissingBridge
  | processedAdded
  | processedUpdated
deriving DecidableEq, Repr

/-- `process_router(ri)`: one reconciliation pass.  Interface, gateway and
route processing act on external collaborators; the agent-state effect
modelled here is the port-forwarding reconciliation against the gateway
port resolved from the stored document (`ri.get_ex_gw_port()` reads
`router['gw_port']`). -/
def process_router (ri : RouterInfo) : Except AgentError RouterInfo := do
  let ex_gw_port := ri.router.gw_port
  let (ri2, _) ← process_router_portforwardings ri ex_gw_port
  .ok ri2

/-- `_process_added_router(router)`: register the router
(`_router_added`), overwrite the stored document, run one reconciliation
pass and notify `after_router_added`. -/
def _process_added_router (st : AgentState) (router : Router) :
    AgentState × Option AgentError :=
  match _router_added st router.id router with
  | (st1, some e) => (st1, some e)
  | (st1, none) =>
    match lookupRI st1.router_info router.id with
    | none => (st1, some .keyError)
    | some ri =>
      let ri := { ri with router := router }
      match process_router ri with
      | .error e => ({ st1 with router_info := insertRI st1.router_info router.id ri }, some e)
      | .ok ri2 =>
        let st2 := { st1 with router_info := insertRI st1.router_info router.id ri2 }
        ({ st2 with notifications := st2.notifications ++ [NotificationEvent.after_router_added router.id] },
         none)

/-- `_process_updated_router(router)`: overwrite the stored document,
notify `before_router_updated`, run one reconciliation pass and notify
`after_router_updated`. -/
def _process_updated_router (st : AgentState) (router : Router) :
    AgentState × Option AgentError :=
  match lookupRI st.router_info router.id with
  | none => (st, some .keyError)
  | some ri =>
    let ri := { ri with router := router }
    let st1 := { st with
      router_info := insertRI st.router_info router.id ri,
      notifications := st.notifications ++ [NotificationEvent.before_router_updated router.id] }
    match process_router ri with
    | .error e => (st1, some e)
    | .ok ri2 =>
      let st2 := { st1 with router_info := insertRI st1.router_info router.id ri2 }
      ({ st2 with notifications := st2.notifications ++ [NotificationEvent.after_router_updated router.id] },
       none)

/-- `_process_router_if_compatible(router)`: skip silently when an
external bridge is configured but its device is missing; otherwise raise
`RouterNotCompatibleWithAgent` for a foreign router id in single-router
mode, for a router with neither an external gateway nor the
internal-only-routers flag, or for an external network conflicting with
this agent's bound external network (re-verified by a forced remote check
first); finally dispatch to the creation or update path by registry
membership. -/
def _process_router_if_compatible (conf : Conf) (env : CompatEnv)
    (st : AgentState) (router : Router) :
    AgentState × Except AgentError CompatResult :=
  if conf.external_network_bridge ≠ "" &&
      !(env.deviceExists conf.external_network_bridge) then
    (st, .ok .skippedMissingBridge)
  else if !conf.use_namespaces && router.id ≠ conf.router_id then
    (st, .error (.routerNotCompatibleWithAgent router.id))
  else
    let ex_net_id := router.external_gateway_info.bind ExternalGatewayInfo.network_id
    if ex_net_id.isNone && !conf.handle_internal_only_routers then
      (st, .error (.routerNotCompatibleWithAgent router.id))
    else
      match _fetch_external_net_id conf env.extNetRpc st false with
      | .error e => (st, .error e)
      | .ok (target_ex_net_id, st1) =>
        let checkFailed :
            Except AgentError (Bool × AgentState) :=
          match target_ex_net_id, ex_net_id with
          | some t, some e =>
            if e ≠ t then
              match _fetch_external_net_id conf env.extNetRpcForced st1 true with
              | .error err => .error err
              | .ok (forced, st2) => .ok (decide (some e ≠ forced), st2)
            else .ok (false, st1)
          | _, _ => .ok (false, st1)
        match checkFailed with
        | .error e => (st1, .error e)
        | .ok (true, st2) => (st2, .error (.routerNotCompatibleWithAgent router.id))
        | .ok (false, st2) =>
          if (lookupRI st2.router_info router.id).isNone then
            match _process_added_router st2 router with
            | (st3, some e) => (st3, .error e)
            | (st3, none) => (st3, .ok .processedAdded)
          else
            match _process_updated_router st2 router with
            | (st3, some e) => (st3, .error e)
            | (st3, none) => (st3, .ok .processedUpdated)

/-- Modelled from the spec: update actions (`Process | DeleteRouter`); the
queue module defining `DELETE_ROUTER` is outside the repository sources. -/
inductive UpdateAction
  | process
  | deleteRouter
deriving DecidableEq, Repr

/-- Modelled from the spec: a `RouterUpdate` record
`{router_id, priority, action, optional embedded snapshot, timestamp}`;
the queue module defining it is outside the repository sources. -/
structure RouterUpdate where
  id : RouterId
  priority : Nat
  timestamp : Nat
  router : Option Router
  action : UpdateAction
deriving DecidableEq, Repr

/-- Modelled from the spec: priority of RPC-origin updates (RPC ranks
ahead of the sync task). -/
def PRIORITY_RPC : Nat := 0

/-- Modelled from the spec: priority of full-sync-origin updates. -/
def PRIORITY_SYNC_ROUTERS_TASK : Nat := 1

/-- Failure modes of one `_process_router_if_compatible` call as seen by
the worker loop: the dedicated `RouterNotCompatibleWithAgent` signal, or
any other exception. -/
inductive CompatErr
  | notCompatible
  | generic
deriving DecidableEq, Repr

/-- Outcomes of the external calls made while the worker processes one
update: the wall clock read, the `get_routers` fetch result, whether
`_router_removed` raises on the removal path, the overall outcome of
`_process_router_if_compatible`, whether the router is known to the
registry when the incompatibility handler runs, and whether the forced
`_router_removed` inside that handler raises. -/
structure UpdateEnv where
  now : Nat
  fetchResult : Except Unit (List Router)
  removeRaises : Bool
  compatResult : Except CompatErr Unit
  routerKnown : Bool
  handlerRemoveRaises : Bool
deriving Repr

/-- Observable effects of processing one update in the worker loop:
the full-sync flag afterwards, the timestamp passed to
`rp.fetched_and_processed` (`none` when it was not called), and which of
the fetch, removal and compatibility steps ran. -/
structure StepResult where
  fullsync : Bool
  released : Option Nat
  fetchAttempted : Bool
  removalInvoked : Bool
  compatInvoked : Bool
deriving DecidableEq, Repr

/-- The timestamp an update carries when it reaches the end of the loop
body: refreshed to the wall clock just before fetching when the update
embeds no snapshot and is not a delete, the enqueued timestamp otherwise. -/
def effectiveTimestamp (update : RouterUpdate) (env : UpdateEnv) : Nat :=
  if update.action ≠ .deleteRouter ∧ update.router = none then env.now
  else update.timestamp

/-- Shared tail of the worker body once the router document is resolved:
route to removal when there is none (`continue` afterwards, with no
lease release), otherwise run the compatibility path; its
`RouterNotCompatibleWithAgent` is handled (force-removing a known
router — where a raise from that forced removal is uncaught), any other
exception sets the full-sync flag and abandons the update, and on
reaching the end of the body the lease is released with the update's
timestamp. -/
def routerResolvedStep (fullsync : Bool) (ts : Nat) (router? : Option Router)
    (env : UpdateEnv) (fetchAttempted : Bool) : Except Unit StepResult :=
  match router? with
  | none =>
    if env.removeRaises then
      .ok ⟨true, none, fetchAttempted, true, false⟩
    else
      .ok ⟨fullsync, none, fetchAttempted, true, false⟩
  | some _ =>
    match env.compatResult with
    | .ok _ => .ok ⟨fullsync, some ts, fetchAttempted, false, true⟩
    | .error .notCompatible =>
      if env.routerKnown then
        if env.handlerRemoveRaises then
          .error ()
        else
          .ok ⟨fullsync, some ts, fetchAttempted, true, true⟩
      else
        .ok ⟨fullsync, some ts, fetchAttempted, false, true⟩
    | .error .generic => .ok ⟨true, none, fetchAttempted, false, true⟩

/-- One iteration of `_process_router_update` for one dequeued update:
when the update is not a delete and embeds no snapshot, stamp it with the
wall clock and fetch the router; a fetch failure sets the full-sync flag
and abandons the update.  Then continue with `routerResolvedStep`.
`Except.error` models an exception escaping the loop body. -/
def _process_router_update_step (fullsync : Bool) (update : RouterUpdate)
    (env : UpdateEnv) : Except Unit StepResult :=
  if update.action ≠ .deleteRouter ∧ update.router = none then
    match env.fetchResult with
    | .error _ => .ok ⟨true, none, true, false, false⟩
    | .ok routers => routerResolvedStep fullsync env.now routers.head? env true
  else
    routerResolvedStep fullsync update.timestamp update.router env false

/-- The worker draining a sequence of dequeued updates, carrying the
full-sync flag; an uncaught exception from the body aborts the iteration
(and would kill the worker greenthread). -/
def _process_router_update_loop (fullsync : Bool) :
    List (RouterUpdate × UpdateEnv) → Except Unit Bool
  | [] => .ok fullsync
  | (update, env) :: rest =>
    match _process_router_update_step fullsync update env with
    | .error e => .error e
    | .ok res => _process_router_update_loop res.fullsync rest

/-- State touched by the periodic full-sync task: the full-sync flag, the
registry key set, the update queue contents (in insertion order) and the
set of namespaces marked keep on the namespace manager. -/
structure SyncState where
  fullsync : Bool
  router_info : List RouterId
  queue : List RouterUpdate
  ns_keep : List RouterId
deriving DecidableEq, Repr

/-- How `fetch_and_sync_all_routers` ended: normally, by signalling
`AbortSyncRouters` after a messaging error from the fetch, or with an
exception escaping from an enqueue call. -/
inductive SyncOutcome
  | completed
  | abortSyncRouters
  | enqueueError
deriving DecidableEq, Repr

/-- The update enqueued for each fetched router during a full sync:
sync-task priority, the pass timestamp and the embedded snapshot. -/
def mkSyncUpdate (r : Router) (ts : Nat) : RouterUpdate :=
  ⟨r.id, PRIORITY_SYNC_ROUTERS_TASK, ts, some r, .process⟩

/-- The `DeleteRouter` update enqueued for a router that disappeared
since the last sync: sync-task priority and the pass timestamp. -/
def mkDeleteUpdate (rid : RouterId) (ts : Nat) : RouterUpdate :=
  ⟨rid, PRIORITY_SYNC_ROUTERS_TASK, ts, none, .deleteRouter⟩

/-- One of the enqueue loops of `fetch_and_sync_all_routers`: for each
update, mark its router namespace keep, then enqueue it.  `enqFail`
injects an exception from the n-th `_queue.add` call of the pass
(counted across both loops, `idx` being the count already made); the
returned flag reports whether the loop was aborted by such an exception. -/
def syncEnqueue : SyncState → List RouterUpdate → Nat → Option Nat → SyncState × Bool
  | st, [], _, _ => (st, false)
  | st, u :: rest, idx, enqFail =>
    let st1 := { st with ns_keep := st.ns_keep ++ [u.id] }
    if enqFail = some idx then (st1, true)
    else syncEnqueue { st1 with queue := st1.queue ++ [u] } rest (idx + 1) enqFail

/-- `fetch_and_sync_all_routers(context, ns_manager)`: snapshot the known
router ids, fetch the full router list (a messaging error signals
`AbortSyncRouters`), enqueue a sync update per fetched router, clear the
full-sync flag, then enqueue a `DeleteRouter` update for every previously
known id missing from the fetch, marking every touched namespace keep. -/
def fetch_and_sync_all_routers (st : SyncState)
    (fetchResult : Except Unit (List Router)) (enqFail : Option Nat)
    (ts : Nat) : SyncState × SyncOutcome :=
  let prev_router_ids := st.router_info
  match fetchResult with
  | .error _ => (st, .abortSyncRouters)
  | .ok routers =>
    let syncUpdates := routers.map (fun r => mkSyncUpdate r ts)
    let r1 := syncEnqueue st syncUpdates 0 enqFail
    if r1.2 then (r1.1, .enqueueError)
    else
      let st2 := { r1.1 with fullsync := false }
      let curr_router_ids := routers.map Router.id
      let delIds := prev_router_ids.filter (fun rid => decide (rid ∉ curr_router_ids))
      let delUpdates := delIds.map (fun rid => mkDeleteUpdate rid ts)
      let r2 := syncEnqueue st2 delUpdates routers.length enqFail
      if r2.2 then (r2.1, .enqueueError) else (r2.1, .completed)

/-- `periodic_sync_routers_task(context)`: return immediately unless the
full-sync flag is set; otherwise run `fetch_and_sync_all_routers` and
re-set the flag when it signals `AbortSyncRouters` (an enqueue exception
propagates out of the task without touching the flag). -/
def periodic_sync_routers_task (st : SyncState)
    (fetchResult : Except Unit (List Router)) (enqFail : Option Nat)
    (ts : Nat) : SyncState :=
  if !st.fullsync then st
  else
    match fetch_and_sync_all_routers st fetchResult enqFail ts with
    | (st1, .abortSyncRouters) => { st1 with fullsync := true }
    | (st1, _) => st1

/-- Outcome of one startup `get_service_plugin_list` RPC. -/
inductive CallOutcome
  | success (plugins : List String)
  | remoteError
  | timeout
deriving DecidableEq, Repr

/-- How the startup retry loop left `self.neutron_service_plugins`:
a plugin list, `none` after a swallowed remote error, or a re-raised
messaging timeout. -/
inductive PluginListResult
  | ok (plugins : Option (List String))
  | raisedTimeout
deriving DecidableEq, Repr

/-- The `while True` retry loop around `get_service_plugin_list` in
`L3NATAgent.__init__`: decrement the retry counter, make the call
(`outcomes i` is the result of the i-th call), break on success, swallow
a remote error and break, and on a messaging timeout retry while the
decremented counter is positive, re-raising otherwise.  Returns the
result together with the total number of calls made. -/
def get_service_plugin_list_retry (outcomes : Nat → CallOutcome) :
    Nat → Nat → PluginListResult × Nat
  | i, 0 =>
    match outcomes i with
    | .success ps => (.ok (some ps), i + 1)
    | .remoteError => (.ok none, i + 1)
    | .timeout => (.raisedTimeout, i + 1)
  | i, rc + 1 =>
    match outcomes i with
    | .success ps => (.ok (some ps), i + 1)
    | .remoteError => (.ok none, i + 1)
    | .timeout =>
      if 0 < rc then get_service_plugin_list_retry outcomes (i + 1) rc
      else (.raisedTimeout, i + 1)

/-- The retry loop as entered by `L3NATAgent.__init__`, with
`retry_count = 5`. -/
def startup_service_plugin_calls (outcomes : Nat → CallOutcome) :
    PluginListResult × Nat :=
  get_service_plugin_list_retry outcomes 0 5

/-- The desired collection with `outside_addr` populated from a fixed IP
(the first loop of the gateway branch of `process_router_portforwardings`). -/
def populate (fip : FixedIp) (pfs : List PortForwarding) : List PortForwarding :=
  pfs.map (fun p => { p with outside_addr := some fip.ip_address })

/-- The rule list after installing the DNAT rule of each listed record. -/
def installRules (l : List PortForwarding) (rules : List (String × String)) :
    List (String × String) :=
  rules ++ l.map (fun p => ("PREROUTING", rule_in p))

/-- The rule list after retracting the DNAT rule of each listed record. -/
def retractRules (l : List PortForwarding) (rules : List (String × String)) :
    List (String × String) :=
  l.foldl (fun rs p => removeFirst rs ("PREROUTING", rule_in p)) rules

/-- The router document the worker body acts on once the fetch phase is
over: `none` when the fetch raised (the body was abandoned), `some none`
when no document is available (removal path), `some (some r)` otherwise. -/
def resolvedRouterAfterFetch (update : RouterUpdate) (env : UpdateEnv) :
    Option (Option Router) :=
  if update.action ≠ .deleteRouter ∧ update.router = none then
    match env.fetchResult with
    | .error _ => none
    | .ok routers => some routers.head?
  else some update.router

/-- The previously-known router ids absent from the freshly fetched list
(the iteration domain of the stale-router deletion loop). -/
def staleRouterIds (st : SyncState) (routers : List Router) : List RouterId :=
  st.router_info.filter (fun rid => decide (rid ∉ routers.map Router.id))

/-- Whether the injected enqueue failure hits one of the first `n` add
calls of the pass (the per-router enqueue loop that precedes the clearing
of the full-sync flag). -/
def enqueueFailsBefore (enqFail : Option Nat) (n : Nat) : Bool :=
  match enqFail with
  | some k => decide (k < n)
  | none => false

/-- Concrete data: the previously applied rule of the diffing example. -/
def c3_old_rule : PortForwarding := ⟨"tcp", 80, "10.0.0.5", 8080, some "172.24.4.2"⟩

/-- Concrete data: the desired rule of the diffing example, same protocol
and outside port, different inside address, address not yet populated. -/
def c3_new_rule : PortForwarding := ⟨"tcp", 80, "10.0.0.6", 8080, none⟩

/-- Concrete data: the desired rule after `outside_addr` is populated from
the gateway port's first fixed IP. -/
def c3_new_rule_populated : PortForwarding := ⟨"tcp", 80, "10.0.0.6", 8080, some "172.24.4.2"⟩

/-- Concrete data: a gateway port with one fixed IP. -/
def c3_gw_port : Port := ⟨[⟨"172.24.4.2"⟩]⟩

/-- Concrete data: a router document desiring exactly the new rule. -/
def c3_router : Router := ⟨"router-1", false, false, some [c3_new_rule], none, some c3_gw_port⟩

/-- Concrete data: runtime state with the old rule applied. -/
def c3_ri : RouterInfo :=
  ⟨"router-1", c3_router, .legacy, [c3_old_rule], [("PREROUTING", rule_in c3_old_rule)]⟩

/-- Concrete data: the runtime state after one reconciliation pass of
`c3_ri` against the gateway port. -/
def c3_ri_after : RouterInfo :=
  { c3_ri with
      router := { c3_router with portforwardings := some [c3_new_rule_populated] },
      portforwardings := [c3_new_rule_populated],
      nat_rules := [("PREROUTING", rule_in c3_new_rule_populated)] }

/-- Concrete data: a `DeleteRouter` update carrying no snapshot. -/
def c1_update : RouterUpdate := ⟨"router-1", PRIORITY_RPC, 7, none, .deleteRouter⟩

/-- Concrete data: worker-call outcomes under which the removal succeeds. -/
def c1_env : UpdateEnv := ⟨0, .ok [], false, .ok (), false, false⟩

/-- Concrete data: a router document processed via the compatibility path. -/
def c1w_router : Router := ⟨"router-2", false, false, none, none, none⟩

/-- Concrete data: an update embedding `c1w_router` as its snapshot. -/
def c1w_update : RouterUpdate := ⟨"router-2", PRIORITY_SYNC_ROUTERS_TASK, 42, some c1w_router, .process⟩

/-- Concrete data: worker-call outcomes with a successful compatibility pass. -/
def c1w_env : UpdateEnv := ⟨9, .ok [], false, .ok (), false, false⟩

/-- Concrete data: a router document flagged both distributed and HA. -/
def c2_router : Router := ⟨"router-3", true, true, none, none, none⟩

/-- Concrete data: an empty agent state. -/
def c2_state : AgentState := ⟨[], none, []⟩

/-- Concrete data: a sync state entering a full sync with nothing known. -/
def c5_state : SyncState := ⟨true, [], [], []⟩

/-- Concrete data: a sync state knowing one router, about to full-sync. -/
def c6_st : SyncState := ⟨true, ["router-9"], [], []⟩

/-- Concrete data: the state after a full sync of `c6_st` fetching no
routers: the stale router is enqueued for deletion and kept. -/
def c6_st2 : SyncState := ⟨false, ["router-9"], [mkDeleteUpdate "router-9" 3], ["router-9"]⟩

/-- Concrete data: an update whose desired state must be fetched. -/
def c7_update : RouterUpdate := ⟨"router-7", PRIORITY_RPC, 0, none, .process⟩

/-- Concrete data: worker-call outcomes whose fetch raises. -/
def c7_env : UpdateEnv := ⟨5, .error (), false, .ok (), false, false⟩

/-- Concrete data: a router document without the port-forwarding key. -/
def c8_router_nopf : Router := ⟨"router-8", false, false, none, none, none⟩

/-- Concrete data: runtime state for `c8_router_nopf`. -/
def c8_ri_nopf : RouterInfo := ⟨"router-8", c8_router_nopf, .legacy, [], []⟩

/-- Concrete data: a router document declaring port-forwardings. -/
def c8_router_pf : Router := ⟨"router-8", false, false, some [c3_new_rule], none, none⟩

/-- Concrete data: runtime state with one applied rule, about to lose its
gateway port. -/
def c8_ri_pf : RouterInfo :=
  ⟨"router-8", c8_router_pf, .legacy, [c3_old_rule], [("PREROUTING", rule_in c3_old_rule)]⟩

/-- Concrete data: a configuration naming an external bridge. -/
def c10_conf : Conf := ⟨"br-ex", true, "", true, ""⟩

/-- Concrete data: an environment in which no bridge device exists. -/
def c10_env : CompatEnv := ⟨fun _ => false, .ok "net-1", .ok "net-1"⟩

/-- Concrete data: an empty agent state. -/
def c10_state : AgentState := ⟨[], none, []⟩

/-- Concrete data: an arbitrary router document. -/
def c10_router : Router := ⟨"router-10", false, false, none, none, none⟩

lemma applyPortforwardings_create (l : List PortForwarding) (rules : List (String × String)) :
    applyPortforwardings "create" l rules = .ok (installRules l rules) := by
  induction l generalizing rules with
  | nil => simp [applyPortforwardings, installRules]
  | cons p rest ih =>
    simp [applyPortforwardings, _update_portforwardings, ih, installRules]

lemma applyPortforwardings_delete (l : List PortForwarding) (rules : List (String × String)) :
    applyPortforwardings "delete" l rules = .ok (retractRules l rules) := by
  induction l generalizing rules with
  | nil => simp [applyPortforwardings, retractRules]
  | cons p rest ih =>
    simp [applyPortforwardings, _update_portforwardings, ih, retractRules]

lemma process_pf_gateway (ri : RouterInfo) (gw : Port) (pfs : List PortForwarding)
    (fip : FixedIp) (rest : List FixedIp)
    (hpf : ri.router.portforwardings = some pfs) (hgw : gw.fixed_ips = fip :: rest) :
    process_router_portforwardings ri (some gw)
      = .ok ({ ri with
          router := { ri.router with portforwardings := some (populate fip pfs) },
          portforwardings := populate fip pfs,
          nat_rules := retractRules
            (ri.portforwardings.filter (fun r => decide (r ∉ populate fip pfs)))
            (installRules
              ((populate fip pfs).filter (fun r => decide (r ∉ ri.portforwardings)))
              ri.nat_rules) }, true) := by
  have hgw2 : gw.fixed_ips.head? = some fip := by rw [hgw]; rfl
  simp only [process_router_portforwardings, hpf, hgw2, diff_list_of_dict,
    applyPortforwardings_create, applyPortforwardings_delete, populate]

lemma retractRules_self (l : List PortForwarding) :
    retractRules l (l.map (fun p => ("PREROUTING", rule_in p))) = [] := by
  induction l with
  | nil => rfl
  | cons p rest ih =>
    have hstep : removeFirst
        (("PREROUTING", rule_in p) :: rest.map (fun q => ("PREROUTING", rule_in q)))
        ("PREROUTING", rule_in p)
        = rest.map (fun q => ("PREROUTING", rule_in q)) := by
      simp [removeFirst]
    simp only [retractRules, List.map_cons, List.foldl_cons, hstep]
    exact ih

lemma syncEnqueue_fullsync (l : List RouterUpdate) (st : SyncState) (idx : Nat)
    (enqFail : Option Nat) : (syncEnqueue st l idx enqFail).1.fullsync = st.fullsync := by
  induction l generalizing st idx with
  | nil => rfl
  | cons u rest ih =>
    simp only [syncEnqueue]
    split
    · rfl
    · exact ih _ _

lemma syncEnqueue_none (l : List RouterUpdate) (st : SyncState) (idx : Nat) :
    syncEnqueue st l idx none
      = ({ st with
            ns_keep := st.ns_keep ++ l.map RouterUpdate.id,
            queue := st.queue ++ l }, false) := by
  induction l generalizing st idx with
  | nil => simp [syncEnqueue]
  | cons u rest ih =>
    simp only [syncEnqueue, List.map_cons]
    rw [if_neg (by simp)]
    rw [ih]
    simp

lemma syncEnqueue_failed (l : List RouterUpdate) (st : SyncState) (idx k : Nat) :
    (syncEnqueue st l idx (some k)).2 = true ↔ idx ≤ k ∧ k < idx + l.length := by
  induction l generalizing st idx with
  | nil => simp [syncEnqueue]
  | cons u rest ih =>
    simp only [syncEnqueue]
    by_cases hk : k = idx
    · subst hk
      rw [if_pos rfl]
      simp
    · rw [if_neg (by simpa using hk)]
      rw [ih]
      simp only [List.length_cons]
      omega

lemma fetch_and_sync_none (st : SyncState) (routers : List Router) (ts : Nat) :
    fetch_and_sync_all_routers st (.ok routers) none ts
      = ({ st with
            fullsync := false,
            ns_keep := st.ns_keep ++ routers.map Router.id ++ staleRouterIds st routers,
            queue := st.queue ++ routers.map (fun r => mkSyncUpdate r ts)
              ++ (staleRouterIds st routers).map (fun rid => mkDeleteUpdate rid ts) },
         .completed) := by
  simp only [fetch_and_sync_all_routers, syncEnqueue_none, staleRouterIds,
    List.map_map, Bool.false_eq_true, if_false]
  have h1 : RouterUpdate.id ∘ (fun r => mkSyncUpdate r ts) = Router.id := rfl
  have h2 : RouterUpdate.id ∘ (fun rid => mkDeleteUpdate rid ts) = id := rfl
  rw [h1, h2, List.map_id]

lemma filter_eq_single_of_nodup (l : List RouterId) (a : RouterId)
    (hnd : l.Nodup) (ha : a ∈ l) :
    l.filter (fun x => decide (x = a)) = [a] := by
  induction l with
  | nil => cases ha
  | cons b rest ih =>
    rcases List.nodup_cons.mp hnd with ⟨hb, hrest⟩
    by_cases hba : b = a
    · subst hba
      have : rest.filter (fun x => decide (x = b)) = [] := by
        apply List.filter_eq_nil_iff.mpr
        intro x hx
        simp only [decide_eq_true_eq]
        intro hxa
        exact hb (hxa ▸ hx)
      simp [List.filter_cons, this]
    · have ha2 : a ∈ rest := by
        rcases List.mem_cons.mp ha with h | h
        · exact absurd h.symm hba
        · exact h
      simp [List.filter_cons, hba, ih hrest ha2]

lemma fetch_ok_not_abort (st : SyncState) (routers : List Router)
    (enqFail : Option Nat) (ts : Nat) :
    (fetch_and_sync_all_routers st (.ok routers) enqFail ts).2 ≠ .abortSyncRouters := by
  simp only [fetch_and_sync_all_routers]
  split
  · simp
  · split
    · simp
    · simp

lemma periodic_task_eq (st : SyncState) (fetchResult : Except Unit (List Router))
    (enqFail : Option Nat) (ts : Nat) (hfs : st.fullsync = true)
    (hna : (fetch_and_sync_all_routers st fetchResult enqFail ts).2 ≠ .abortSyncRouters) :
    periodic_sync_routers_task st fetchResult enqFail ts
      = (fetch_and_sync_all_routers st fetchResult enqFail ts).1 := by
  unfold periodic_sync_routers_task
  rw [hfs]
  rw [show fetch_and_sync_all_routers st fetchResult enqFail ts
        = ((fetch_and_sync_all_routers st fetchResult enqFail ts).1,
           (fetch_and_sync_all_routers st fetchResult enqFail ts).2) from rfl]
  cases ho : (fetch_and_sync_all_routers st fetchResult enqFail ts).2 with
  | completed => simp
  | abortSyncRouters => exact absurd ho hna
  | enqueueError => simp

lemma fetch_ok_fullsync (st : SyncState) (routers : List Router)
    (enqFail : Option Nat) (ts : Nat) :
    (fetch_and_sync_all_routers st (.ok routers) enqFail ts).1.fullsync
      = ((syncEnqueue st (routers.map (fun r => mkSyncUpdate r ts)) 0 enqFail).2 &&
          st.fullsync) := by
  simp only [fetch_and_sync_all_routers]
  cases h1 : (syncEnqueue st (routers.map (fun r => mkSyncUpdate r ts)) 0 enqFail).2 with
  | true =>
    simp [h1, syncEnqueue_fullsync]
  | false =>
    simp only [h1, Bool.false_eq_true, if_false, Bool.false_and]
    split
    · exact syncEnqueue_fullsync _ _ _ _
    · exact syncEnqueue_fullsync _ _ _ _

lemma routerResolvedStep_none_released (fullsync : Bool) (ts : Nat) (env : UpdateEnv)
    (fa : Bool) (res : StepResult)
    (h : routerResolvedStep fullsync ts none env fa = .ok res) :
    res.released = none := by
  cases hr : env.removeRaises <;>
    simp only [routerResolvedStep, hr, Bool.false_eq_true, if_false, if_true,
      Except.ok.injEq] at h <;>
    rw [← h]

lemma routerResolvedStep_some_released (fullsync : Bool) (ts : Nat) (r : Router)
    (env : UpdateEnv) (fa : Bool) (res : StepResult)
    (h : routerResolvedStep fullsync ts (some r) env fa = .ok res)
    (hc : env.compatResult ≠ .error .generic) :
    res.released = some ts := by
  cases hcr : env.compatResult with
  | ok u =>
    simp only [routerResolvedStep, hcr, Except.ok.injEq] at h
    rw [← h]
  | error ce =>
    cases ce with
    | generic => exact absurd hcr hc
    | notCompatible =>
      simp only [routerResolvedStep, hcr] at h
      by_cases hk : env.routerKnown = true
      · rw [if_pos hk] at h
        by_cases hh : env.handlerRemoveRaises = true
        · rw [if_pos hh] at h
          cases h
        · rw [if_neg hh] at h
          simp only [Except.ok.injEq] at h
          rw [← h]
      · rw [if_neg hk] at h
        simp only [Except.ok.injEq] at h
        rw [← h]

lemma step_ok_of_no_handler_raise (fullsync : Bool) (update : RouterUpdate)
    (env : UpdateEnv) (hh : env.handlerRemoveRaises = false) :
    ∃ res, _process_router_update_step fullsync update env = .ok res := by
  obtain ⟨now, fetchResult, removeRaises, compatResult, routerKnown, handlerRemoveRaises⟩ := env
  simp only [] at hh
  subst hh
  have hstep : ∀ (fs : Bool) (ts : Nat) (r? : Option Router) (fa : Bool),
      ∃ res, routerResolvedStep fs ts r?
        ⟨now, fetchResult, removeRaises, compatResult, routerKnown, false⟩ fa = .ok res := by
    intro fs ts r? fa
    cases r? with
    | none =>
      cases removeRaises <;> exact ⟨_, rfl⟩
    | some r =>
      cases compatResult with
      | ok u => exact ⟨_, rfl⟩
      | error ce =>
        cases ce with
        | generic => exact ⟨_, rfl⟩
        | notCompatible =>
          cases routerKnown <;> simp [routerResolvedStep]
  by_cases hc : update.action ≠ .deleteRouter ∧ update.router = none
  · simp only [_process_router_update_step, if_pos hc]
    cases fetchResult with
    | error e => exact ⟨_, rfl⟩
    | ok routers => exact hstep _ _ _ _
  · simp only [_process_router_update_step, if_neg hc]
    exact hstep _ _ _ _

lemma loop_total (l : List (RouterUpdate × UpdateEnv)) (fullsync : Bool)
    (hh : ∀ p ∈ l, p.2.handlerRemoveRaises = false) :
    ∃ b, _process_router_update_loop fullsync l = .ok b := by
  induction l generalizing fullsync with
  | nil => exact ⟨fullsync, rfl⟩
  | cons p rest ih =>
    obtain ⟨res, hres⟩ :=
      step_ok_of_no_handler_raise fullsync p.1 p.2 (hh p (List.mem_cons_self p rest))
    have : _process_router_update_loop fullsync (p :: rest)
        = _process_router_update_loop res.fullsync rest := by
      simp only [_process_router_update_loop, hres]
    rw [this]
    exact ih _ (fun q hq => hh q (List.mem_cons_of_mem p hq))

lemma retry_success (outcomes : Nat → CallOutcome) (i rc : Nat) (ps : List String)
    (h : outcomes i = .success ps) :
    get_service_plugin_list_retry outcomes i rc = (.ok (some ps), i + 1) := by
  cases rc <;> simp [get_service_plugin_list_retry, h]

lemma retry_step_timeout (outcomes : Nat → CallOutcome) (i rc : Nat)
    (h : outcomes i = .timeout) (hrc : 0 < rc) :
    get_service_plugin_list_retry outcomes i (rc + 1)
      = get_service_plugin_list_retry outcomes (i + 1) rc := by
  simp [get_service_plugin_list_retry, h, hrc]

lemma retry_last_timeout (outcomes : Nat → CallOutcome) (i : Nat)
    (h : outcomes i = .timeout) :
    get_service_plugin_list_retry outcomes i 1 = (.raisedTimeout, i + 1) := by
  simp [get_service_plugin_list_retry, h]

lemma retry_calls_le (outcomes : Nat → CallOutcome) (rc : Nat) :
    ∀ i, (get_service_plugin_list_retry outcomes i (rc + 1)).2 ≤ i + rc + 1 := by
  induction rc with
  | zero =>
    intro i
    cases h : outcomes i <;> simp [get_service_plugin_list_retry, h]
  | succ n ih =>
    intro i
    cases h : outcomes i with
    | success ps => simp [retry_success outcomes i _ _ h]
    | remoteError => simp [get_service_plugin_list_retry, h]
    | timeout =>
      rw [retry_step_timeout outcomes i (n + 1) h (Nat.succ_pos n)]
      calc (get_service_plugin_list_retry outcomes (i + 1) (n + 1)).2
          ≤ i + 1 + n + 1 := ih (i + 1)
        _ ≤ i + (n + 1) + 1 := by omega

/-- Claim C1 (counterexample): an update with action `DeleteRouter` that is
processed successfully via the removal path (`_router_removed` returns
without raising, `removalInvoked = true`, no exception escapes) completes
with `released = none`: the worker never calls
`fetched_and_processed(update.timestamp)` on the removal path, because the
`continue` at the end of the `if not router` branch skips the release at
the end of the loop body.  This refutes the claim that the lease is
released for updates processed successfully via the removal path. -/
theorem delete_update_lease_not_released :
    _process_router_update_step false c1_update c1_env
      = .ok ⟨false, none, false, true, false⟩ := rfl

/-- Claim C1 (amended): the worker calls
`fetched_and_processed(update.timestamp)` exactly for updates processed
through the compatibility path (including handled incompatibility) with
no generic failure, passing the update timestamp (refreshed to the fetch
wall clock when the desired state was fetched); updates routed to the
removal path complete without releasing the lease, and a failed fetch
abandons the update without a release while setting the full-sync flag. -/
theorem lease_release_only_on_compat_path (fullsync : Bool) (update : RouterUpdate)
    (env : UpdateEnv) (res : StepResult)
    (h : _process_router_update_step fullsync update env = .ok res) :
    (resolvedRouterAfterFetch update env = some none → res.released = none) ∧
    (∀ r, resolvedRouterAfterFetch update env = some (some r) →
        env.compatResult ≠ .error .generic →
        res.released = some (effectiveTimestamp update env)) ∧
    (resolvedRouterAfterFetch update env = none →
        res.released = none ∧ res.fullsync = true) := by
  obtain ⟨now, fetchResult, removeRaises, compatResult, routerKnown, handlerRemoveRaises⟩ := env
  by_cases hc : update.action ≠ .deleteRouter ∧ update.router = none
  · simp only [_process_router_update_step, resolvedRouterAfterFetch,
      effectiveTimestamp, if_pos hc] at h ⊢
    cases fetchResult with
    | error e =>
      simp only [Except.ok.injEq] at h
      subst h
      simp
    | ok routers =>
      simp only [] at h ⊢
      refine ⟨?_, ?_, ?_⟩
      · intro hx
        simp only [Option.some.injEq] at hx
        rw [hx] at h
        exact routerResolvedStep_none_released _ _ _ _ _ h
      · intro r hx hcr
        simp only [Option.some.injEq] at hx
        rw [hx] at h
        exact routerResolvedStep_some_released _ _ _ _ _ _ h hcr
      · intro hx
        cases hx
  · simp only [_process_router_update_step, resolvedRouterAfterFetch,
      effectiveTimestamp, if_neg hc] at h ⊢
    refine ⟨?_, ?_, ?_⟩
    · intro hx
      simp only [Option.some.injEq] at hx
      rw [hx] at h
      exact routerResolvedStep_none_released _ _ _ _ _ h
    · intro r hx hcr
      simp only [Option.some.injEq] at hx
      rw [hx] at h
      exact routerResolvedStep_some_released _ _ _ _ _ _ h hcr
    · intro hx
      cases hx

/-- Claim C1 (witness): the amended theorem applied to a sync-priority
update embedding its snapshot and a successful compatibility pass: the
lease is released with the update's enqueued timestamp. -/
theorem lease_release_only_on_compat_path_witness :
    StepResult.released ⟨false, some 42, false, false, true⟩
      = some (effectiveTimestamp c1w_update c1w_env) :=
  (lease_release_only_on_compat_path false c1w_update c1w_env
      ⟨false, some 42, false, false, true⟩ rfl).2.1
    c1w_router rfl (fun hcontra => Except.noConfusion hcontra)

/-- Claim C2: a router document with both `distributed = true` and
`ha = true` makes `_create_router` raise `DvrHaRouterNotSupported`, and
`_router_added` propagates that exception before any mutation: the agent
state (the `router_info` registry and the notification stream) is
returned unchanged, so no runtime object is stored for the router id. -/
theorem dvr_ha_router_rejected (st : AgentState) (router_id : RouterId) (router : Router)
    (hd : router.distributed = true) (hh : router.ha = true) :
    _create_router router_id router = .error (.dvrHaRouterNotSupported router_id) ∧
    _router_added st router_id router = (st, some (.dvrHaRouterNotSupported router_id)) := by
  have hc : _create_router router_id router
      = .error (.dvrHaRouterNotSupported router_id) := by
    simp [_create_router, hd, hh]
  exact ⟨hc, by simp [_router_added, hc]⟩

/-- Claim C2 (witness): the theorem applied to a concrete distributed+HA
router document and an empty agent state. -/
theorem dvr_ha_router_rejected_witness :
    _create_router "router-3" c2_router
      = .error (.dvrHaRouterNotSupported "router-3") ∧
    _router_added c2_state "router-3" c2_router
      = (c2_state, some (.dvrHaRouterNotSupported "router-3")) :=
  dvr_ha_router_rejected c2_state "router-3" c2_router rfl rfl

/-- Claim C3: port-forward diffing uses full structural equality, not the
(protocol, outside_port) key: with a gateway port present, the desired
record gets `outside_addr` populated from the gateway port's first fixed
IP, the diff of old = [{tcp, 80, 10.0.0.5, 8080}] against
new = [{tcp, 80, 10.0.0.6, 8080}] yields adds = [new entry] and
removes = [old entry], and one reconciliation pass replaces the old DNAT
rule by the new one (delete-plus-add, not in-place update). -/
theorem portforward_diff_full_structural :
    diff_list_of_dict [c3_old_rule] [c3_new_rule_populated]
      = ([c3_new_rule_populated], [c3_old_rule]) ∧
    process_router_portforwardings c3_ri (some c3_gw_port) = .ok (c3_ri_after, true) := by
  constructor
  · decide
  · rfl

/-- Claim C4: port-forward reconciliation is idempotent.  After one pass
with a gateway port, the stored collection equals the desired collection
with addresses populated, and a second pass from the resulting state is a
fixed point returning the same runtime state (so its adds and removes are
empty and no rule is installed or retracted). -/
theorem portforward_reconciliation_idempotent
    (ri : RouterInfo) (gw : Port) (pfs : List PortForwarding)
    (fip : FixedIp) (rest : List FixedIp) (ri2 : RouterInfo) (applied : Bool)
    (hpf : ri.router.portforwardings = some pfs)
    (hgw : gw.fixed_ips = fip :: rest)
    (h : process_router_portforwardings ri (some gw) = .ok (ri2, applied)) :
    ri2.portforwardings = populate fip pfs ∧
    process_router_portforwardings ri2 (some gw) = .ok (ri2, true) := by
  rw [process_pf_gateway ri gw pfs fip rest hpf hgw] at h
  simp only [Except.ok.injEq, Prod.mk.injEq] at h
  obtain ⟨hX, hA⟩ := h
  subst hX
  refine ⟨rfl, ?_⟩
  have hfix : populate fip (populate fip pfs) = populate fip pfs := by
    simp only [populate, List.map_map]
    rfl
  have hnil : ∀ l : List PortForwarding, l.filter (fun r => decide (r ∉ l)) = [] := by
    intro l
    apply List.filter_eq_nil_iff.mpr
    intro a ha
    simp [ha]
  rw [process_pf_gateway _ gw (populate fip pfs) fip rest rfl hgw, hfix, hnil]
  simp [installRules, retractRules]

/-- Claim C4 (witness): the theorem applied to the concrete single-rule
replacement pass: the state after the first pass is a fixed point of a
second pass. -/
theorem portforward_reconciliation_idempotent_witness :
    c3_ri_after.portforwardings = populate ⟨"172.24.4.2"⟩ [c3_new_rule] ∧
    process_router_portforwardings c3_ri_after (some c3_gw_port)
      = .ok (c3_ri_after, true) :=
  portforward_reconciliation_idempotent c3_ri c3_gw_port [c3_new_rule]
    ⟨"172.24.4.2"⟩ [] c3_ri_after true rfl rfl rfl

/-- Claim C5: during a full sync, a messaging failure of the router-list
fetch makes `fetch_and_sync_all_routers` signal `AbortSyncRouters` and the
periodic task leaves the full-sync flag true; the flag ends up false only
when the fetch itself succeeded; and with a successful fetch the final
flag is true only when an enqueue exception hit the per-router loop that
precedes the clearing of the flag — enqueue failures never re-set the
flag from inside the pass. -/
theorem full_sync_flag_cleared_only_after_fetch (st : SyncState)
    (fetchResult : Except Unit (List Router)) (enqFail : Option Nat) (ts : Nat)
    (hfs : st.fullsync = true) :
    (∀ e : Unit, fetchResult = .error e →
        (fetch_and_sync_all_routers st fetchResult enqFail ts).2 = .abortSyncRouters ∧
        (periodic_sync_routers_task st fetchResult enqFail ts).fullsync = true) ∧
    ((periodic_sync_routers_task st fetchResult enqFail ts).fullsync = false →
        ∃ routers, fetchResult = .ok routers) ∧
    (∀ routers, fetchResult = .ok routers →
        (periodic_sync_routers_task st fetchResult enqFail ts).fullsync
          = enqueueFailsBefore enqFail routers.length) := by
  have habort : ∀ e : Unit, fetchResult = .error e →
      (fetch_and_sync_all_routers st fetchResult enqFail ts).2 = .abortSyncRouters ∧
      (periodic_sync_routers_task st fetchResult enqFail ts).fullsync = true := by
    intro e he
    subst he
    constructor
    · rfl
    · simp [periodic_sync_routers_task, fetch_and_sync_all_routers, hfs]
  have hok : ∀ routers, fetchResult = .ok routers →
      (periodic_sync_routers_task st fetchResult enqFail ts).fullsync
        = enqueueFailsBefore enqFail routers.length := by
    intro routers hr
    subst hr
    rw [periodic_task_eq st _ enqFail ts hfs (fetch_ok_not_abort st routers enqFail ts)]
    rw [fetch_ok_fullsync]
    cases enqFail with
    | none =>
      rw [syncEnqueue_none]
      simp [enqueueFailsBefore]
    | some k =>
      by_cases hk : k < routers.length
      · have h1 : (syncEnqueue st (routers.map (fun r => mkSyncUpdate r ts)) 0 (some k)).2
            = true := by
          rw [syncEnqueue_failed]
          simpa using hk
        simp [h1, hfs, hk, enqueueFailsBefore]
      · have h1 : (syncEnqueue st (routers.map (fun r => mkSyncUpdate r ts)) 0 (some k)).2
            = false := by
          rw [← Bool.not_eq_true, syncEnqueue_failed]
          simpa using hk
        simp [h1, hk, enqueueFailsBefore]
  refine ⟨habort, ?_, hok⟩
  intro hfalse
  cases hres : fetchResult with
  | error e =>
    have := (habort e hres).2
    rw [this] at hfalse
    cases hfalse
  | ok routers => exact ⟨routers, rfl⟩

/-- Claim C5 (witness): the theorem applied to a failing fetch from an
empty registry: `AbortSyncRouters` is signalled and the flag stays true. -/
theorem full_sync_flag_cleared_only_after_fetch_witness :
    (fetch_and_sync_all_routers c5_state (.error ()) none 0).2 = .abortSyncRouters ∧
    (periodic_sync_routers_task c5_state (.error ()) none 0).fullsync = true :=
  (full_sync_flag_cleared_only_after_fetch c5_state (.error ()) none 0 rfl).1 () rfl

/-- Claim C6: in a full sync with no enqueue failure, for every router id
known before the fetch but absent from the fetched list, exactly one
`DeleteRouter` update is enqueued for it during the pass, carrying the
sync-task priority and the pass timestamp, and the router's namespace is
marked keep; no `DeleteRouter` update is enqueued for ids present in the
fetched list. -/
theorem sync_enqueues_one_delete_for_stale_routers
    (st : SyncState) (routers : List Router) (ts : Nat)
    (st2 : SyncState) (outcome : SyncOutcome)
    (hnd : st.router_info.Nodup)
    (h : fetch_and_sync_all_routers st (.ok routers) none ts = (st2, outcome)) :
    ∀ rid : RouterId,
      (rid ∈ st.router_info ∧ rid ∉ routers.map Router.id →
        (st2.queue.drop st.queue.length).filter
            (fun u => decide (u.action = UpdateAction.deleteRouter ∧ u.id = rid))
          = [mkDeleteUpdate rid ts] ∧ rid ∈ st2.ns_keep) ∧
      (rid ∈ routers.map Router.id →
        (st2.queue.drop st.queue.length).filter
            (fun u => decide (u.action = UpdateAction.deleteRouter ∧ u.id = rid))
          = []) := by
  rw [fetch_and_sync_none] at h
  simp only [Prod.mk.injEq] at h
  obtain ⟨h1, h2⟩ := h
  subst h1
  intro rid
  have hdrop :
      ((st.queue ++ routers.map (fun r => mkSyncUpdate r ts)
          ++ (staleRouterIds st routers).map (fun i => mkDeleteUpdate i ts)).drop
        st.queue.length)
        = routers.map (fun r => mkSyncUpdate r ts)
          ++ (staleRouterIds st routers).map (fun i => mkDeleteUpdate i ts) := by
    rw [List.append_assoc, List.drop_left]
  have hsyncnil : ∀ rid2 : RouterId,
      (routers.map (fun r => mkSyncUpdate r ts)).filter
        (fun u => decide (u.action = UpdateAction.deleteRouter ∧ u.id = rid2)) = [] := by
    intro rid2
    apply List.filter_eq_nil_iff.mpr
    intro u hu
    rcases List.mem_map.mp hu with ⟨r, _, rfl⟩
    simp [mkSyncUpdate]
  have hdelmap :
      ((staleRouterIds st routers).map (fun i => mkDeleteUpdate i ts)).filter
        (fun u => decide (u.action = UpdateAction.deleteRouter ∧ u.id = rid))
        = ((staleRouterIds st routers).filter (fun i => decide (i = rid))).map
            (fun i => mkDeleteUpdate i ts) := by
    rw [List.filter_map]
    congr 1
    apply List.filter_congr
    intro i hi
    simp [mkDeleteUpdate, Function.comp]
  constructor
  · rintro ⟨hmem, hnot⟩
    have hstale : rid ∈ staleRouterIds st routers := by
      simp only [staleRouterIds, List.mem_filter, decide_eq_true_eq]
      exact ⟨hmem, by simpa using hnot⟩
    have hnds : (staleRouterIds st routers).Nodup := hnd.filter _
    constructor
    · simp only [hdrop, List.filter_append, hsyncnil, hdelmap,
        filter_eq_single_of_nodup _ _ hnds hstale]
      simp
    · simp only [List.mem_append]
      exact Or.inr hstale
  · intro hmem
    have hstale : rid ∉ staleRouterIds st routers := by
      simp only [staleRouterIds, List.mem_filter, decide_eq_true_eq]
      rintro ⟨-, hno⟩
      exact (by simpa using hno : rid ∉ routers.map Router.id) hmem
    have : (staleRouterIds st routers).filter (fun i => decide (i = rid)) = [] := by
      apply List.filter_eq_nil_iff.mpr
      intro i hi
      simp only [decide_eq_true_eq]
      intro hieq
      exact hstale (hieq ▸ hi)
    simp only [hdrop, List.filter_append, hsyncnil, hdelmap, this]
    simp

/-- Claim C6 (witness): the theorem applied to a registry knowing one
router while the fetch returns an empty list: the pass enqueues exactly
the one delete update for it at sync priority with the pass timestamp,
and the id is marked keep. -/
theorem sync_enqueues_one_delete_for_stale_routers_witness :
    (c6_st2.queue.drop c6_st.queue.length).filter
        (fun u => decide (u.action = UpdateAction.deleteRouter ∧ u.id = "router-9"))
      = [mkDeleteUpdate "router-9" 3] ∧ "router-9" ∈ c6_st2.ns_keep :=
  (sync_enqueues_one_delete_for_stale_routers c6_st [] 3 c6_st2 .completed
      (by simp [c6_st]) rfl "router-9").1
    ⟨by simp [c6_st], by simp⟩

/-- Claim C7: a failed desired-state fetch for an update needing one sets
the full-sync flag and abandons the update (no removal, no compatibility
processing, no lease release); a raise from the removal path is caught
and likewise sets the flag and abandons only the update; a generic raise
from the compatibility (creation or update) path is caught and does the
same; and the worker loop proceeds to the next update after each handled
step and never crashes when the steps raise only handled exceptions. -/
theorem worker_failures_set_flag_and_continue (fullsync : Bool)
    (update : RouterUpdate) (env : UpdateEnv)
    (rest l : List (RouterUpdate × UpdateEnv)) :
    ((update.action ≠ .deleteRouter ∧ update.router = none) →
        env.fetchResult = .error () →
        _process_router_update_step fullsync update env
          = .ok ⟨true, none, true, false, false⟩) ∧
    (resolvedRouterAfterFetch update env = some none → env.removeRaises = true →
        ∃ fa, _process_router_update_step fullsync update env
          = .ok ⟨true, none, fa, true, false⟩) ∧
    (∀ r, resolvedRouterAfterFetch update env = some (some r) →
        env.compatResult = .error .generic →
        ∃ fa, _process_router_update_step fullsync update env
          = .ok ⟨true, none, fa, false, true⟩) ∧
    ((∀ p ∈ l, p.2.handlerRemoveRaises = false) →
        ∃ b, _process_router_update_loop fullsync l = .ok b) ∧
    (∀ res, _process_router_update_step fullsync update env = .ok res →
        _process_router_update_loop fullsync ((update, env) :: rest)
          = _process_router_update_loop res.fullsync rest) := by
  obtain ⟨now, fetchResult, removeRaises, compatResult, routerKnown, handlerRemoveRaises⟩ := env
  refine ⟨?_, ?_, ?_, loop_total l fullsync, ?_⟩
  · intro hc hf
    simp only [] at hf
    subst hf
    simp only [_process_router_update_step, if_pos hc]
  · intro hres hrr
    simp only [] at hrr
    subst hrr
    by_cases hc : update.action ≠ .deleteRouter ∧ update.router = none
    · simp only [resolvedRouterAfterFetch, if_pos hc] at hres
      cases fetchResult with
      | error e => cases hres
      | ok routers =>
        simp only [Option.some.injEq] at hres
        refine ⟨true, ?_⟩
        simp only [_process_router_update_step, if_pos hc, hres,
          routerResolvedStep, if_true]
    · simp only [resolvedRouterAfterFetch, if_neg hc, Option.some.injEq] at hres
      refine ⟨false, ?_⟩
      simp only [_process_router_update_step, if_neg hc, hres,
        routerResolvedStep, if_true]
      rw [if_neg (fun hand => hc ⟨hand.1, hres⟩)]
  · intro r hres hcg
    simp only [] at hcg
    subst hcg
    by_cases hc : update.action ≠ .deleteRouter ∧ update.router = none
    · simp only [resolvedRouterAfterFetch, if_pos hc] at hres
      cases fetchResult with
      | error e => cases hres
      | ok routers =>
        simp only [Option.some.injEq] at hres
        refine ⟨true, ?_⟩
        simp only [_process_router_update_step, if_pos hc, hres, routerResolvedStep]
    · simp only [resolvedRouterAfterFetch, if_neg hc, Option.some.injEq] at hres
      refine ⟨false, ?_⟩
      simp only [_process_router_update_step, if_neg hc, hres, routerResolvedStep]
      rw [if_neg (by simp)]
  · intro res hres
    simp only [_process_router_update_loop, hres]

/-- Claim C7 (witness): the theorem applied to an update whose fetch
fails: the step sets the flag and abandons the update, and the one-update
loop completes with the flag set instead of crashing. -/
theorem worker_failures_set_flag_and_continue_witness :
    _process_router_update_step false c7_update c7_env
      = .ok ⟨true, none, true, false, false⟩ ∧
    _process_router_update_loop false [(c7_update, c7_env)] = .ok true := by
  have hthm := worker_failures_set_flag_and_continue false c7_update c7_env [] []
  have h1 := hthm.1 ⟨by decide, rfl⟩ rfl
  exact ⟨h1, (hthm.2.2.2.2 _ h1).trans rfl⟩

/-- Claim C8: the degenerate branches of port-forward reconciliation.
With no `portforwardings` key on the router document the step returns
immediately: the runtime state is unchanged and the rule-set commit
(`apply`, the returned flag) is not reached.  With the key declared but
no gateway port, the rule of every previously applied record is
retracted, the stored collection becomes empty, and the change is
committed; in particular when the applied rule list is exactly the rules
of the stored records, it becomes empty. -/
theorem portforward_degenerate_branches (ri : RouterInfo) (gw? : Option Port)
    (pfs : List PortForwarding) :
    (ri.router.portforwardings = none →
        process_router_portforwardings ri gw? = .ok (ri, false)) ∧
    (ri.router.portforwardings = some pfs →
        process_router_portforwardings ri none
          = .ok ({ ri with
                    portforwardings := [],
                    nat_rules := retractRules ri.portforwardings ri.nat_rules }, true)) ∧
    (ri.router.portforwardings = some pfs →
        ri.nat_rules = ri.portforwardings.map (fun p => ("PREROUTING", rule_in p)) →
        process_router_portforwardings ri none
          = .ok ({ ri with portforwardings := [], nat_rules := [] }, true)) := by
  have h2 : ri.router.portforwardings = some pfs →
      process_router_portforwardings ri none
        = .ok ({ ri with
                  portforwardings := [],
                  nat_rules := retractRules ri.portforwardings ri.nat_rules }, true) := by
    intro h
    simp only [process_router_portforwardings, h, applyPortforwardings_delete]
  refine ⟨?_, h2, ?_⟩
  · intro h
    simp [process_router_portforwardings, h]
  · intro h hrules
    rw [h2 h, hrules, retractRules_self]

/-- Claim C8 (witness): the theorem applied to a router without the
port-forwarding key (no-op, no commit) and to a router that declared the
key but lost its gateway (every applied rule retracted, collection
emptied, change committed). -/
theorem portforward_degenerate_branches_witness :
    process_router_portforwardings c8_ri_nopf (some c3_gw_port)
      = .ok (c8_ri_nopf, false) ∧
    process_router_portforwardings c8_ri_pf none
      = .ok ({ c8_ri_pf with portforwardings := [], nat_rules := [] }, true) :=
  ⟨(portforward_degenerate_branches c8_ri_nopf (some c3_gw_port) []).1 rfl,
   (portforward_degenerate_branches c8_ri_pf none [c3_new_rule]).2.2 rfl rfl⟩

/-- Claim C9 (counterexample): with every startup call timing out, the
`get_service_plugin_list` loop makes exactly 5 calls in total and then
re-raises the timeout: the initial attempt is followed by only 4 retries,
not 5 — a fifth retry (a sixth call) never happens. -/
theorem startup_retry_exhausts_after_five_calls :
    startup_service_plugin_calls (fun _ => CallOutcome.timeout)
      = (.raisedTimeout, 5) := rfl

/-- Claim C9 (amended): at startup the `get_service_plugin_list` call is
attempted at most 5 times in total — the initial call plus up to 4
retries on messaging timeout; when all 5 attempts time out the timeout is
re-raised after the 5th call, and a success on any of the 5 attempts ends
the loop with the fetched plugin list. -/
theorem startup_retry_bounded_calls (outcomes : Nat → CallOutcome) :
    ((∀ i, i < 5 → outcomes i = .timeout) →
        startup_service_plugin_calls outcomes = (.raisedTimeout, 5)) ∧
    (startup_service_plugin_calls outcomes).2 ≤ 5 ∧
    (∀ i ps, i < 5 → (∀ j, j < i → outcomes j = .timeout) →
        outcomes i = .success ps →
        startup_service_plugin_calls outcomes = (.ok (some ps), i + 1)) := by
  refine ⟨?_, ?_, ?_⟩
  · intro h
    show get_service_plugin_list_retry outcomes 0 5 = (.raisedTimeout, 5)
    rw [show (5 : Nat) = 4 + 1 from rfl,
      retry_step_timeout outcomes 0 4 (h 0 (by norm_num)) (by norm_num),
      show (4 : Nat) = 3 + 1 from rfl,
      retry_step_timeout outcomes 1 3 (h 1 (by norm_num)) (by norm_num),
      show (3 : Nat) = 2 + 1 from rfl,
      retry_step_timeout outcomes 2 2 (h 2 (by norm_num)) (by norm_num),
      show (2 : Nat) = 1 + 1 from rfl,
      retry_step_timeout outcomes 3 1 (h 3 (by norm_num)) (by norm_num),
      retry_last_timeout outcomes 4 (h 4 (by norm_num))]
  · have := retry_calls_le outcomes 4 0
    simpa [startup_service_plugin_calls] using this
  · intro i ps hi hj hs
    show get_service_plugin_list_retry outcomes 0 5 = (.ok (some ps), i + 1)
    interval_cases i
    · exact retry_success outcomes 0 5 ps hs
    · rw [show (5 : Nat) = 4 + 1 from rfl,
        retry_step_timeout outcomes 0 4 (hj 0 (by norm_num)) (by norm_num)]
      exact retry_success outcomes 1 4 ps hs
    · rw [show (5 : Nat) = 4 + 1 from rfl,
        retry_step_timeout outcomes 0 4 (hj 0 (by norm_num)) (by norm_num),
        show (4 : Nat) = 3 + 1 from rfl,
        retry_step_timeout outcomes 1 3 (hj 1 (by norm_num)) (by norm_num)]
      exact retry_success outcomes 2 3 ps hs
    · rw [show (5 : Nat) = 4 + 1 from rfl,
        retry_step_timeout outcomes 0 4 (hj 0 (by norm_num)) (by norm_num),
        show (4 : Nat) = 3 + 1 from rfl,
        retry_step_timeout outcomes 1 3 (hj 1 (by norm_num)) (by norm_num),
        show (3 : Nat) = 2 + 1 from rfl,
        retry_step_timeout outcomes 2 2 (hj 2 (by norm_num)) (by norm_num)]
      exact retry_success outcomes 3 2 ps hs
    · rw [show (5 : Nat) = 4 + 1 from rfl,
        retry_step_timeout outcomes 0 4 (hj 0 (by norm_num)) (by norm_num),
        show (4 : Nat) = 3 + 1 from rfl,
        retry_step_timeout outcomes 1 3 (hj 1 (by norm_num)) (by norm_num),
        show (3 : Nat) = 2 + 1 from rfl,
        retry_step_timeout outcomes 2 2 (hj 2 (by norm_num)) (by norm_num),
        show (2 : Nat) = 1 + 1 from rfl,
        retry_step_timeout outcomes 3 1 (hj 3 (by norm_num)) (by norm_num)]
      exact retry_success outcomes 4 1 ps hs

/-- Claim C9 (witness): the amended theorem applied to the all-timeout
outcome sequence: 5 calls are made, the timeout is re-raised, and the
call-count bound holds. -/
theorem startup_retry_bounded_calls_witness :
    startup_service_plugin_calls (fun _ => CallOutcome.timeout)
      = (.raisedTimeout, 5) ∧
    (startup_service_plugin_calls (fun _ => CallOutcome.timeout)).2 ≤ 5 := by
  have h := startup_retry_bounded_calls (fun _ => CallOutcome.timeout)
  exact ⟨h.1 (fun i _ => rfl), h.2.1⟩

/-- Claim C10: when `external_network_bridge` is configured but the named
bridge device does not exist, `_process_router_if_compatible` returns its
skip outcome without raising (in particular without
`RouterNotCompatibleWithAgent`) and with the agent state unchanged: no
router is created, updated or removed in the registry and no observer
notification is emitted. -/
theorem missing_bridge_skips_router_processing (conf : Conf) (env : CompatEnv)
    (st : AgentState) (router : Router)
    (hb : conf.external_network_bridge ≠ "")
    (hd : env.deviceExists conf.external_network_bridge = false) :
    _process_router_if_compatible conf env st router
      = (st, .ok .skippedMissingBridge) := by
  simp [_process_router_if_compatible, hb, hd]

/-- Claim C10 (witness): the theorem applied to a configuration naming
bridge `br-ex` in an environment where no device exists. -/
theorem missing_bridge_skips_router_processing_witness :
    _process_router_if_compatible c10_conf c10_env c10_state c10_router
      = (c10_state, .ok .skippedMissingBridge) :=
  missing_bridge_skips_router_processing c10_conf c10_env c10_state c10_router
    (by decide) rfl
